import Mathlib

/-!
Shallow embedding of `easyca.py` (t11z/EasyCA), a file-system-backed CA
management tool, together with theorems settling the frozen claims about it.

Modelling conventions:
* The PKI store is abstracted by the fixed directory layout the program
  touches (`ca/<name>/{ca.key,ca.crt}`, `csr/<name>.{key,csr}`,
  `certs/<name>.crt`, `keys/<name>.key`): the `FS` structure records, for
  each of those locations, which entries exist, and for certificate files
  their parsed content (`Cert`).
* `run_command` shells out to openssl; each invocation site is modelled at
  the collaborator interface: the command succeeds iff its input files
  exist, and its observable effect (files written, text produced) is taken
  from the certificate model.  A failing invocation makes `run_command`
  print and `exit(1)`; this is modelled as the error `Err.toolkitExit`.
* A Python exception escaping a function is modelled as `Except.error`:
  `Err.fileNotFound` for `FileNotFoundError`, `Err.valueError` for
  `ValueError`, `Err.attrError` for `AttributeError` (attribute access on
  `None` or on a plain string), `Err.typeError` for `TypeError` (call with
  a missing required positional argument), `Err.indexError` for
  `IndexError` (list subscript out of range), `Err.nameError` for an
  unbound local variable.  The wizard and `main` install no exception
  handler, so an `Except.error` result is an uncaught exception that
  aborts the whole process.
* Every operation returns a `Res`: the resulting file-system state, the
  ordered trace of external events performed (toolkit invocations, file
  renames and removals), and the value or uncaught exception.
-/

namespace EasyCA

/-- Parsed content of a certificate file, as seen through the openssl
queries the program issues: issuer hash, subject hash, and whether the
Basic Constraints mark it as a CA. -/
structure Cert where
  issuerHash : String
  subjectHash : String
  isCA : Bool
deriving DecidableEq, Repr

/-- The slice of the file system the program touches, under the base
directory: the `ca/`, `csr/`, `certs/` and `keys/` subtrees.  Certificate
files carry their parsed content; keys and requests are presence-only. -/
structure FS where
  /-- whether the directory `ca/` exists -/
  caDirExists : Bool
  /-- names of the subdirectories of `ca/` -/
  caNames : List String
  /-- `name ↦ content` for each existing file `ca/<name>/ca.crt` -/
  caCerts : List (String × Cert)
  /-- names for which `ca/<name>/ca.key` exists -/
  caKeys : List String
  /-- whether the directory `csr/` exists -/
  csrDirExists : Bool
  /-- file names inside `csr/` (e.g. `"host1.csr"`, `"host1.key"`) -/
  csrFiles : List String
  /-- whether the directory `certs/` exists -/
  certsDirExists : Bool
  /-- `name ↦ content` for each existing file `certs/<name>.crt` -/
  certFiles : List (String × Cert)
  /-- whether the directory `keys/` exists -/
  keysDirExists : Bool
  /-- file names inside `keys/` (e.g. `"host1.key"`) -/
  keyFiles : List String
deriving DecidableEq, Repr

/-- Uncaught Python exceptions and the `run_command` failure path. -/
inductive Err
  /-- `FileNotFoundError` (raised explicitly, or by `os.rename`/`os.remove`) -/
  | fileNotFound (msg : String)
  /-- `ValueError` -/
  | valueError (msg : String)
  /-- `AttributeError`: attribute access on `None` or on a `str` -/
  | attrError
  /-- `TypeError`: call missing a required positional argument -/
  | typeError
  /-- `IndexError`: list subscript out of range -/
  | indexError
  /-- `UnboundLocalError` (a `NameError`): local variable referenced before assignment -/
  | nameError
  /-- `run_command` saw a nonzero exit status and called `exit(1)` -/
  | toolkitExit
deriving DecidableEq, Repr

/-- Observable external events, in program order: toolkit (openssl)
invocations and file moves/removals. -/
inductive Event
  /-- `openssl req -x509 ...` generating a self-signed key + certificate -/
  | genCA (name : String)
  /-- `openssl req -new ...` generating a key + request -/
  | genCSR (name : String)
  /-- `openssl x509 -req ...` signing request `csrName` with CA `caName` -/
  | sign (caName csrName : String) (days : Int)
  /-- `openssl x509 -noout -text` rendering the certificate at `path` -/
  | render (path : String)
  /-- `openssl x509 -noout -issuer_hash` / `-subject_hash` on `path` -/
  | hashQuery (path : String)
  /-- the piped `openssl x509 -noout -text | grep "CA:TRUE"` query on `path` -/
  | grepCA (path : String)
  /-- `os.rename src dst` -/
  | rename (src dst : String)
  /-- `os.remove path` -/
  | remove (path : String)
deriving DecidableEq, Repr

instance {ε α : Type} [DecidableEq ε] [DecidableEq α] : DecidableEq (Except ε α) := fun x y =>
  match x, y with
  | .ok a, .ok b =>
      if h : a = b then isTrue (by rw [h]) else isFalse (by simp [h])
  | .error a, .error b =>
      if h : a = b then isTrue (by rw [h]) else isFalse (by simp [h])
  | .ok _, .error _ => isFalse (by simp)
  | .error _, .ok _ => isFalse (by simp)

/-- Result of running an embedded operation: final file-system state,
ordered event trace, and the returned value or uncaught exception. -/
structure Res (α : Type) where
  fs : FS
  tr : List Event
  val : Except Err α
deriving DecidableEq, Repr

/-- The argparse namespace fields the claims need (`easyca.py` lines
188-202).  Subject fields (`country`, ...) only flow into toolkit command
lines and are threaded as plain strings where needed. -/
structure Args where
  basedir : String
  common_name : String
  days : Int
deriving DecidableEq, Repr

/-- A Python value passed where the functions expect the argparse
namespace: the real namespace, `None` (the default of the `args=None`
keyword parameters), or a plain string (the `args.basedir` slip at
line 44). -/
inductive PyArgs
  | none
  | str (s : String)
  | obj (a : Args)
deriving DecidableEq, Repr

/-- Attribute access `x.basedir`: succeeds only on the argparse
namespace; on `None` or a `str` it raises `AttributeError`. -/
def pyBasedir : PyArgs → Except Err String
  | .obj a => .ok a.basedir
  | _ => .error .attrError

/-- Add a file name to a directory listing (no duplicates). -/
def addFile (x : String) (l : List String) : List String :=
  if x ∈ l then l else x :: l

/-- Replace or insert the entry for `k` in an association list. -/
def upsert (k : String) (c : Cert) (l : List (String × Cert)) : List (String × Cert) :=
  (k, c) :: l.filter (fun p => p.1 != k)

/-- Characters of a string before its first `'.'`. -/
def charsUntilDot : List Char → List Char
  | [] => []
  | c :: cs => if c = '.' then [] else c :: charsUntilDot cs

/-- Python `s.split(".")[0]` (line 151): the part before the first dot. -/
def pySplitDotHead (s : String) : String :=
  String.mk (charsUntilDot s.toList)

/-- Fuel-indexed worker for `pyReplace`, on character lists: at each
position, when the pattern matches, emit the replacement and skip the
pattern, else keep the character. -/
def pyReplaceAux (pat repl : List Char) : Nat → List Char → List Char
  | _, [] => []
  | 0, l => l
  | fuel + 1, c :: cs =>
      if pat.isPrefixOf (c :: cs) then
        repl ++ pyReplaceAux pat repl fuel (List.drop (pat.length - 1) cs)
      else c :: pyReplaceAux pat repl fuel cs

/-- Python `s.replace(old, new)` (lines 177, 180): replaces every
occurrence of `old`, scanning left to right. -/
def pyReplace (s old new : String) : String :=
  String.mk (pyReplaceAux old.toList new.toList s.toList.length s.toList)

/-- Python `s.endswith(suffix)` (line 160). -/
def pyEndsWith (s suffixStr : String) : Bool :=
  List.isSuffixOf suffixStr.toList s.toList

/-- Python list subscript `l[i]`: negative indices count from the end;
anything outside `[-len, len)` raises `IndexError`. -/
def pyIndex {α : Type} (l : List α) (i : Int) : Except Err α :=
  let j : Int := if i < 0 then i + l.length else i
  if 0 ≤ j then
    match l.get? j.toNat with
    | some a => .ok a
    | none => .error .indexError
  else .error .indexError

/-- `get_cas` (lines 16-20): creates `ca/` when absent (as an empty
directory), then lists its subdirectories.  The f-string evaluates
`args.basedir`, so a non-namespace `args` raises `AttributeError`. -/
def get_cas (args : PyArgs) (fs : FS) : Res (List String) :=
  match args with
  | .obj _ =>
      if fs.caDirExists then ⟨fs, [], .ok fs.caNames⟩
      else ⟨{ fs with caDirExists := true, caNames := [] }, [], .ok []⟩
  | _ => ⟨fs, [], .error .attrError⟩

/-- The loop body of `get_root_ca` (lines 24-31): for each CA whose
`ca.crt` exists, query issuer and subject hashes and return the first CA
for which they coincide. -/
def rootScan (basedir : String) (caCerts : List (String × Cert)) :
    List String → List Event × Option String
  | [] => ([], none)
  | ca :: rest =>
      match caCerts.lookup ca with
      | some c =>
          let p := basedir ++ "/ca/" ++ ca ++ "/ca.crt"
          let ev := [Event.hashQuery p, Event.hashQuery p]
          if c.issuerHash == c.subjectHash then (ev, some ca)
          else
            let r := rootScan basedir caCerts rest
            (ev ++ r.1, r.2)
      | none => rootScan basedir caCerts rest

/-- `get_root_ca` (lines 22-31): finds the first self-signed CA among
`get_cas`, returns `none` when there is none. -/
def get_root_ca (args : PyArgs) (fs : FS) : Res (Option String) :=
  match get_cas args fs, args with
  | ⟨fs1, tr1, .error e⟩, _ => ⟨fs1, tr1, .error e⟩
  | ⟨fs1, tr1, .ok cas⟩, .obj a =>
      let p := rootScan a.basedir fs1.caCerts cas
      ⟨fs1, tr1 ++ p.1, .ok p.2⟩
  | ⟨fs1, tr1, .ok _⟩, _ => ⟨fs1, tr1, .error .attrError⟩

/-- `is_sub_ca` (lines 33-50).  Raises `FileNotFoundError` when
`ca/<name>/ca.crt` is absent; raises `ValueError` when the certificate is
not a CA; then line 44 calls `get_root_ca(args.basedir)` — passing the
base-directory string instead of the args namespace — whose `get_cas`
evaluates `args.basedir` on that string and raises `AttributeError`.
The piped grep query is modelled at the collaborator interface: it
returns `"CA:TRUE"` iff the certificate's Basic Constraints mark it a
CA. -/
def is_sub_ca (common_name : String) (args : PyArgs) (fs : FS) : Res Bool :=
  match args with
  | .obj a =>
    let cert_path := a.basedir ++ "/ca/" ++ common_name ++ "/ca.crt"
    match fs.caCerts.lookup common_name with
    | none =>
        ⟨fs, [], .error (.fileNotFound ("Certificate for " ++ common_name ++ " not found."))⟩
    | some c =>
      let tr0 := [Event.grepCA cert_path]
      let basic_constraints := if c.isCA then "CA:TRUE" else ""
      if basic_constraints = "" then
        ⟨fs, tr0, .error (.valueError ("The certificate for " ++ common_name ++ " is not a CA."))⟩
      else
        let tr1 := tr0 ++ [Event.hashQuery cert_path]
        match get_root_ca (.str a.basedir) fs with
        | ⟨fs2, tr2, .error e⟩ => ⟨fs2, tr1 ++ tr2, .error e⟩
        | ⟨fs2, tr2, .ok root?⟩ =>
          match root? with
          | some root_ca =>
            match fs2.caCerts.lookup root_ca with
            | some rc =>
                ⟨fs2, tr1 ++ tr2 ++
                   [Event.hashQuery (a.basedir ++ "/ca/" ++ root_ca ++ "/ca.crt")],
                 .ok (c.issuerHash != rc.subjectHash)⟩
            | none => ⟨fs2, tr1 ++ tr2, .error .toolkitExit⟩
          | none => ⟨fs2, tr1 ++ tr2, .ok false⟩
  | _ => ⟨fs, [], .error .attrError⟩

/-- Content of the self-signed certificate produced by
`openssl req -x509` for `create_ca`: issuer and subject hashes coincide
and Basic Constraints mark it a CA. -/
def selfSignedCert (name : String) : Cert :=
  { issuerHash := "H" ++ name, subjectHash := "H" ++ name, isCA := true }

/-- `create_ca` (lines 52-58): makes `ca/<name>/` (with parents), then the
toolkit writes `ca.key` and `ca.crt` there.  Subject fields and `days`
flow only into the toolkit command line. -/
def create_ca (common_name country state locality organization : String)
    (days : Int) (basedir : String) (fs : FS) : Res Unit :=
  let fs1 := { fs with caDirExists := true, caNames := addFile common_name fs.caNames }
  let fs2 := { fs1 with caCerts := upsert common_name (selfSignedCert common_name) fs1.caCerts,
                        caKeys := addFile common_name fs1.caKeys }
  ⟨fs2, [Event.genCA common_name], .ok ()⟩

/-- `create_csr` (lines 60-69): prints, then the f-string in
`os.makedirs` evaluates `args.basedir` — raising `AttributeError` when
`args` is `None` (the default used by `main`, line 105) before any
directory or file is created and before the toolkit runs.  Otherwise the
toolkit writes `csr/<name>.key` and `csr/<name>.csr`. -/
def create_csr (common_name : String) (subject_alt_names : List String)
    (country state locality organization : String) (args : PyArgs) (fs : FS) : Res Unit :=
  match args with
  | .obj _ =>
    let fs1 := { fs with csrDirExists := true,
                         csrFiles := addFile (common_name ++ ".csr")
                                       (addFile (common_name ++ ".key") fs.csrFiles) }
    ⟨fs1, [Event.genCSR common_name], .ok ()⟩
  | _ => ⟨fs, [], .error .attrError⟩

/-- `sign_csr` (lines 71-76): prints, evaluates `args.basedir` (so
`args=None` raises `AttributeError` before anything happens), creates
`certs/`, then invokes the toolkit.  The function performs no existence
check of its own: openssl needs `csr/<name>.csr`, `ca/<ca>/ca.crt` and
`ca/<ca>/ca.key`; if any is missing the invocation fails and
`run_command` exits (modelled `Err.toolkitExit`); on success it writes
`certs/<name>.crt`, issued by the CA's certificate. -/
def sign_csr (ca_name common_name : String) (days : Int) (args : PyArgs) (fs : FS) : Res Unit :=
  match args with
  | .obj _ =>
    let fs1 := { fs with certsDirExists := true }
    let ev := Event.sign ca_name common_name days
    match fs1.caCerts.lookup ca_name with
    | some cac =>
      if (common_name ++ ".csr") ∈ fs1.csrFiles ∧ ca_name ∈ fs1.caKeys then
        let issued : Cert :=
          { issuerHash := cac.subjectHash, subjectHash := "H" ++ common_name, isCA := false }
        ⟨{ fs1 with certFiles := upsert common_name issued fs1.certFiles }, [ev], .ok ()⟩
      else ⟨fs1, [ev], .error .toolkitExit⟩
    | none => ⟨fs1, [ev], .error .toolkitExit⟩
  | _ => ⟨fs, [], .error .attrError⟩

/-- The toolkit's human-readable rendering of a certificate
(`openssl x509 -noout -text`). -/
def renderText (name : String) (c : Cert) : String :=
  "Certificate " ++ name ++ " issuer=" ++ c.issuerHash ++ " subject=" ++ c.subjectHash

/-- `show_cert` (lines 78-83): builds the path (evaluating
`args.basedir`), checks existence of `certs/<name>.crt`, raising
`FileNotFoundError` when absent — before the rendering toolkit call —
and otherwise prints the toolkit's rendering. -/
def show_cert (common_name : String) (args : PyArgs) (fs : FS) : Res String :=
  match args with
  | .obj a =>
    let cert_path := a.basedir ++ "/certs/" ++ common_name ++ ".crt"
    match fs.certFiles.lookup common_name with
    | none =>
        ⟨fs, [], .error (.fileNotFound ("Certificate for " ++ common_name ++ " not found."))⟩
    | some c => ⟨fs, [Event.render cert_path], .ok (renderText common_name c)⟩
  | _ => ⟨fs, [], .error .attrError⟩

/-- The details dictionary filled by `ask_certificate_details(ca=True)`
(lines 85-99) for the sub-CA branch of the wizard. -/
structure CsrDetails where
  common_name : String
  country : String
  state : String
  locality : String
  organization : String
  days : Int
deriving DecidableEq, Repr

/-- The wizard's sub-CA creation and promotion flow (lines 140-153),
after the user answered action `"1"` and sub-CA `"1"`; `caInput` is the
1-based index typed at the "Enter the index of the CA to sign with"
prompt.  Step order, exactly as in the source: `create_csr`; make
`ca/<name>/`; `os.rename` the pending key `csr/<name>.key` to
`ca/<name>/ca.key`; list CAs and select; `sign_csr`; `os.rename` the
issued certificate `certs/<name>.crt` to `ca/<name>/ca.crt`;
`os.remove` the request `csr/<name>.csr`. -/
def subCaFlow (a : Args) (d : CsrDetails) (caInput : Int) (fs : FS) : Res Unit :=
  match create_csr d.common_name [] d.country d.state d.locality d.organization (.obj a) fs with
  | ⟨fs1, tr1, .error e⟩ => ⟨fs1, tr1, .error e⟩
  | ⟨fs1, tr1, .ok _⟩ =>
    let fs2 := { fs1 with caDirExists := true, caNames := addFile d.common_name fs1.caNames }
    let keySrc := a.basedir ++ "/csr/" ++ d.common_name ++ ".key"
    let keyDst := a.basedir ++ "/ca/" ++ d.common_name ++ "/ca.key"
    if (d.common_name ++ ".key") ∈ fs2.csrFiles then
      let fs3 := { fs2 with
        csrFiles := fs2.csrFiles.filter (fun f => f != d.common_name ++ ".key"),
        caKeys := addFile d.common_name fs2.caKeys }
      let tr3 := tr1 ++ [Event.rename keySrc keyDst]
      let csr := d.common_name ++ ".csr"
      match get_cas (.obj a) fs3 with
      | ⟨fs4, tr4, .error e⟩ => ⟨fs4, tr3 ++ tr4, .error e⟩
      | ⟨fs4, tr4, .ok cas⟩ =>
        match pyIndex cas (caInput - 1) with
        | .error e => ⟨fs4, tr3 ++ tr4, .error e⟩
        | .ok ca =>
          match sign_csr ca (pySplitDotHead csr) d.days (.obj a) fs4 with
          | ⟨fs5, tr5, .error e⟩ => ⟨fs5, tr3 ++ tr4 ++ tr5, .error e⟩
          | ⟨fs5, tr5, .ok _⟩ =>
            let certSrc := a.basedir ++ "/certs/" ++ d.common_name ++ ".crt"
            let certDst := a.basedir ++ "/ca/" ++ d.common_name ++ "/ca.crt"
            match fs5.certFiles.lookup d.common_name with
            | none => ⟨fs5, tr3 ++ tr4 ++ tr5, .error (.fileNotFound certSrc)⟩
            | some c =>
              let fs6 := { fs5 with
                certFiles := fs5.certFiles.filter (fun p => p.1 != d.common_name),
                caCerts := upsert d.common_name c fs5.caCerts }
              let tr6 := tr3 ++ tr4 ++ tr5 ++ [Event.rename certSrc certDst]
              let reqPath := a.basedir ++ "/csr/" ++ d.common_name ++ ".csr"
              if (d.common_name ++ ".csr") ∈ fs6.csrFiles then
                ⟨{ fs6 with csrFiles := fs6.csrFiles.filter (fun f => f != d.common_name ++ ".csr") },
                 tr6 ++ [Event.remove reqPath], .ok ()⟩
              else ⟨fs6, tr6, .error (.fileNotFound reqPath)⟩
    else ⟨fs2, tr1, .error (.fileNotFound keySrc)⟩

/-- The `.csr` files listed by the wizard's sign flow (line 160). -/
def listedCsrs (fs : FS) : List String :=
  fs.csrFiles.filter (fun f => pyEndsWith f ".csr")

/-- Outcome of one pass through the wizard's sign flow. -/
inductive SignOutcome
  /-- "No CSRs found." was printed and the loop continued -/
  | noCsrs
  /-- a CSR was signed and archived -/
  | signed
deriving DecidableEq, Repr

/-- The wizard's sign flow (action `"2"`, lines 157-181).  `details?` is
the value of the wizard-local variable `details['common_name']` if an
earlier iteration of this session assigned it (`none` models the unbound
variable).  `csrInput` and `caInput` are the 1-based indices typed by
the user.  Steps, exactly as in the source: ensure `csr/` exists; list
`.csr` files (continue when none); select a CSR by index; list CAs and
select one by index; `sign_csr` with `days=365`; ensure `keys/` exists;
`os.rename` the selected CSR's key into `keys/`; `os.remove`
`csr/<details['common_name']>.csr` (line 181 names the `details`
variable, not the selected CSR). -/
def signFlow (a : Args) (details? : Option String) (csrInput caInput : Int) (fs : FS) :
    Res SignOutcome :=
  let fs1 := if fs.csrDirExists then fs else { fs with csrDirExists := true, csrFiles := [] }
  let csrs := listedCsrs fs1
  if csrs.isEmpty then ⟨fs1, [], .ok .noCsrs⟩
  else
    match pyIndex csrs (csrInput - 1) with
    | .error e => ⟨fs1, [], .error e⟩
    | .ok csr =>
      match get_cas (.obj a) fs1 with
      | ⟨fs2, tr2, .error e⟩ => ⟨fs2, tr2, .error e⟩
      | ⟨fs2, tr2, .ok cas⟩ =>
        match pyIndex cas (caInput - 1) with
        | .error e => ⟨fs2, tr2, .error e⟩
        | .ok ca =>
          match sign_csr ca (pyReplace csr ".csr" "") 365 (.obj a) fs2 with
          | ⟨fs3, tr3, .error e⟩ => ⟨fs3, tr2 ++ tr3, .error e⟩
          | ⟨fs3, tr3, .ok _⟩ =>
            let fs4 := if fs3.keysDirExists then fs3
                       else { fs3 with keysDirExists := true, keyFiles := [] }
            let keyName := pyReplace csr ".csr" ".key"
            let keySrc := a.basedir ++ "/csr/" ++ keyName
            let keyDst := a.basedir ++ "/keys/" ++ keyName
            if keyName ∈ fs4.csrFiles then
              let fs5 := { fs4 with
                csrFiles := fs4.csrFiles.filter (fun f => f != keyName),
                keyFiles := addFile keyName fs4.keyFiles }
              let tr5 := tr2 ++ tr3 ++ [Event.rename keySrc keyDst]
              match details? with
              | none => ⟨fs5, tr5, .error .nameError⟩
              | some dn =>
                let reqPath := a.basedir ++ "/csr/" ++ dn ++ ".csr"
                if (dn ++ ".csr") ∈ fs5.csrFiles then
                  ⟨{ fs5 with csrFiles := fs5.csrFiles.filter (fun f => f != dn ++ ".csr") },
                   tr5 ++ [Event.remove reqPath], .ok .signed⟩
                else ⟨fs5, tr5, .error (.fileNotFound reqPath)⟩
            else ⟨fs4, tr2 ++ tr3, .error (.fileNotFound keySrc)⟩

/-- The `--days` default of the argument parser (line 199). -/
def parseDays (cliDays : Option Int) : Int := cliDays.getD 3650

/-- The argparse surface (lines 188-202) restricted to the fields the
claims need: `--days` defaults to 3650 and `--basedir` to `"./"`. -/
def parseArgs (common_name : String) (cliDays : Option Int) (cliBasedir : Option String) : Args :=
  { basedir := cliBasedir.getD "./", common_name := common_name, days := parseDays cliDays }

/-- The non-interactive commands dispatched by `main` (lines 101-112). -/
inductive Command
  | createCa
  | createCsr
  | signCsr
  | showCert
deriving DecidableEq, Repr

/-- The argument tuple `main` passes to `sign_csr` at line 107:
`(args.common_name, args.common_name, args.days)` — the common name is
used as both the CA name and the CSR name, and the validity is the
parsed `--days` value. -/
def mainSignCsrCall (a : Args) : String × String × Int :=
  (a.common_name, a.common_name, a.days)

/-- `main` (lines 101-112).  `create-csr` (line 105) and `sign-csr`
(line 107) call their operation without the `args` keyword, so the
operation runs with `args=None`; `show-cert` (line 109) calls
`show_cert(args.common_name)`, omitting the required positional `args`
parameter, which raises `TypeError` at the call itself. -/
def main (cmd : Command) (a : Args) (fs : FS) : Res Unit :=
  match cmd with
  | .createCa => create_ca a.common_name "" "" "" "" a.days a.basedir fs
  | .createCsr => create_csr a.common_name [] "" "" "" "" .none fs
  | .signCsr =>
      let c := mainSignCsrCall a
      sign_csr c.1 c.2.1 c.2.2 .none fs
  | .showCert => ⟨fs, [], .error .typeError⟩

/-- Index of the first occurrence of `x`, or the length when absent. -/
def firstIdx {α : Type} [BEq α] (x : α) : List α → Nat
  | [] => 0
  | y :: ys => if x == y then 0 else firstIdx x ys + 1

/-- Does the result hold a `FileNotFoundError`? -/
def isNotFoundVal {α : Type} : Except Err α → Bool
  | .error (.fileNotFound _) => true
  | _ => false

/-- An empty store: no directories, no files. -/
def fsEmpty : FS :=
  { caDirExists := false, caNames := [], caCerts := [], caKeys := [],
    csrDirExists := false, csrFiles := [], certsDirExists := false, certFiles := [],
    keysDirExists := false, keyFiles := [] }

/-- A fixed argparse namespace used by the concrete scenarios. -/
def a0 : Args := { basedir := ".", common_name := "host1", days := 3650 }

/-- A store holding a single root CA named `Root`. -/
def fsRoot : FS :=
  { fsEmpty with caDirExists := true, caNames := ["Root"],
                 caCerts := [("Root", selfSignedCert "Root")], caKeys := ["Root"] }

/-- The sub-CA details used by the concrete promotion scenario. -/
def dInter : CsrDetails :=
  { common_name := "inter", country := "US", state := "CA", locality := "SF",
    organization := "Org", days := 365 }

/-- A store with a root CA and two pending CSRs `a` and `b`. -/
def fsTwoCsr : FS :=
  { fsRoot with csrDirExists := true, csrFiles := ["a.csr", "a.key", "b.csr", "b.key"] }

/-- A store with a root CA and a single pending CSR `a`. -/
def fsOneCsr : FS :=
  { fsRoot with csrDirExists := true, csrFiles := ["a.csr", "a.key"] }

/-- A sub-CA certificate issued by `Root`. -/
def subCert : Cert := { issuerHash := "HRoot", subjectHash := "HSub", isCA := true }

/-- A non-CA certificate stored under `ca/`. -/
def leafCert : Cert := { issuerHash := "HRoot", subjectHash := "HNot", isCA := false }

/-- A store with a root CA `Root`, a sub-CA `Sub` and a non-CA entry
`NotCA` under `ca/`. -/
def fsHier : FS :=
  { fsRoot with
      caNames := ["Sub", "NotCA", "Root"],
      caCerts := [("Sub", subCert), ("NotCA", leafCert), ("Root", selfSignedCert "Root")],
      caKeys := ["Sub", "NotCA", "Root"] }

/-- A store whose `certs/` directory holds one issued certificate
`host1`. -/
def hostCert : Cert := { issuerHash := "HRoot", subjectHash := "Hhost1", isCA := false }

/-- A store with a root CA and the issued certificate `certs/host1.crt`. -/
def fsCerts : FS :=
  { fsRoot with certsDirExists := true, certFiles := [("host1", hostCert)] }

/-! ## Helper lemmas -/

theorem pyIndex_last {α : Type} (l : List α) (h : l ≠ []) :
    pyIndex l (0 - 1) = .ok (l.getLast h) := by
  unfold pyIndex
  have hlen : 0 < l.length := List.length_pos.mpr h
  have h1 : (0 - 1 : Int) < 0 := by omega
  simp only [h1, if_true]
  have h2 : (0 : Int) ≤ 0 - 1 + l.length := by omega
  simp only [h2, if_true]
  have h3 : ((0 - 1 + (l.length : Int))).toNat = l.length - 1 := by omega
  rw [h3]
  rw [List.getLast_eq_get]
  rw [List.get?_eq_get]

theorem pyIndex_out_of_range {α : Type} (l : List α) (i : Int)
    (h : i < -(l.length : Int) ∨ (l.length : Int) ≤ i) :
    pyIndex l i = .error .indexError := by
  unfold pyIndex
  rcases h with h | h
  · have h1 : i < 0 := by omega
    have h2 : ¬ (0 : Int) ≤ i + l.length := by omega
    simp [h1, h2]
  · have h1 : ¬ i < 0 := by omega
    have h2 : (0 : Int) ≤ i := by omega
    have h3 : l.length ≤ i.toNat := by omega
    simp only [h1, if_false, h2, if_true]
    rw [List.get?_eq_none.mpr h3]

theorem sign_csr_obj_tr (ca_name common_name : String) (days : Int) (a : Args) (fs : FS) :
    (sign_csr ca_name common_name days (.obj a) fs).tr = [Event.sign ca_name common_name days] := by
  unfold sign_csr
  rcases h : FS.caCerts { fs with certsDirExists := true } |>.lookup ca_name with _ | c <;>
    simp [h] <;> split <;> rfl

theorem sign_csr_obj_val (ca_name common_name : String) (days : Int) (a : Args) (fs : FS) :
    (sign_csr ca_name common_name days (.obj a) fs).val = .ok () ∨
    (sign_csr ca_name common_name days (.obj a) fs).val = .error .toolkitExit := by
  unfold sign_csr
  rcases h : FS.caCerts { fs with certsDirExists := true } |>.lookup ca_name with _ | c <;>
    simp [h]
  split
  · exact Or.inl rfl
  · exact Or.inr rfl

theorem sign_csr_obj_val_ne_index (ca_name common_name : String) (days : Int) (a : Args) (fs : FS) :
    (sign_csr ca_name common_name days (.obj a) fs).val ≠ .error .indexError := by
  rcases sign_csr_obj_val ca_name common_name days a fs with h | h <;> rw [h] <;> simp

theorem addFile_ne_nil (x : String) (l : List String) : addFile x l ≠ [] := by
  unfold addFile
  split
  next h => exact List.ne_nil_of_mem h
  next => exact List.cons_ne_nil x l

theorem mem_addFile_self (x : String) (l : List String) : x ∈ addFile x l := by
  unfold addFile
  split
  next h => exact h
  next => exact List.mem_cons_self x l

theorem mem_addFile_of_mem (y x : String) (l : List String) (h : x ∈ l) : x ∈ addFile y l := by
  unfold addFile
  split
  next => exact h
  next => exact List.mem_cons_of_mem y h

/-! ## Claim theorems -/

/-- C1 (counterexample): sign-CSR of the nonexistent CSR `ghost` with
the existing CA `Root` does not fail with `NotFoundError`: `sign_csr`
performs no existence check, so the openssl invocation fails and
`run_command` exits (`Err.toolkitExit`).  No certificate file is
produced. -/
theorem sign_csr_missing_csr_no_notfound :
    (sign_csr "Root" "ghost" 365 (.obj a0) fsRoot).val = .error .toolkitExit ∧
    isNotFoundVal (sign_csr "Root" "ghost" 365 (.obj a0) fsRoot).val = false ∧
    (sign_csr "Root" "ghost" 365 (.obj a0) fsRoot).fs.certFiles = [] :=
  ⟨by decide, by decide, by decide⟩

/-- C1 (amended): when the CA's certificate or key or the pending
request file is missing, sign-CSR fails because the toolkit invocation
fails and `run_command` exits — not with `NotFoundError` — and it
produces no new certificate file under `certs/`. -/
theorem sign_csr_missing_input_toolkit_exit (ca_name common_name : String) (days : Int)
    (a : Args) (fs : FS)
    (h : fs.caCerts.lookup ca_name = none ∨ (common_name ++ ".csr") ∉ fs.csrFiles ∨
         ca_name ∉ fs.caKeys) :
    (sign_csr ca_name common_name days (.obj a) fs).val = .error .toolkitExit ∧
    (sign_csr ca_name common_name days (.obj a) fs).fs.certFiles = fs.certFiles := by
  unfold sign_csr
  rcases hl : FS.caCerts { fs with certsDirExists := true } |>.lookup ca_name with _ | c
  · simp [hl]
  · simp only [hl]
    split
    next hcond =>
      exfalso
      rcases h with h | h | h
      · have h2 : fs.caCerts.lookup ca_name = some c := hl
        rw [h] at h2; cases h2
      · exact h hcond.1
      · exact h hcond.2
    next => exact ⟨rfl, rfl⟩

/-- Witness for `sign_csr_missing_input_toolkit_exit` at a concrete
store with CA `Root` and no CSR `ghost`. -/
theorem sign_csr_missing_input_toolkit_exit_w :
    (sign_csr "Root" "ghost" 365 (.obj a0) fsRoot).val = .error .toolkitExit ∧
    (sign_csr "Root" "ghost" 365 (.obj a0) fsRoot).fs.certFiles = fsRoot.certFiles :=
  sign_csr_missing_input_toolkit_exit "Root" "ghost" 365 a0 fsRoot (Or.inr (Or.inl (by decide)))

/-- C2 (counterexample): in a successful run of the wizard's sub-CA
promotion flow, the pending key `csr/inter.key` is relocated to
`ca/inter/ca.key` strictly before the CSR is signed, i.e. before any
certificate for `inter` exists — refuting the claimed
sign-then-relocate-then-delete order. -/
theorem subCaFlow_key_moved_before_sign :
    (subCaFlow a0 dInter 2 fsRoot).val = .ok () ∧
    (subCaFlow a0 dInter 2 fsRoot).tr =
      [Event.genCSR "inter",
       Event.rename "./csr/inter.key" "./ca/inter/ca.key",
       Event.sign "Root" "inter" 365,
       Event.rename "./certs/inter.crt" "./ca/inter/ca.crt",
       Event.remove "./csr/inter.csr"] ∧
    firstIdx (Event.rename "./csr/inter.key" "./ca/inter/ca.key") (subCaFlow a0 dInter 2 fsRoot).tr <
      firstIdx (Event.sign "Root" "inter" 365) (subCaFlow a0 dInter 2 fsRoot).tr :=
  ⟨by decide, by decide, by decide⟩

/-- C3 (code bug): classification raises `FileNotFoundError` when the
certificate is absent and `ValueError` when it is not a CA, as claimed;
but on every CA certificate that passes those checks — sub-CA and the
root alike — it crashes with `AttributeError`, because line 44 calls
`get_root_ca(args.basedir)` with the base-directory string instead of
the args namespace.  It never returns a Root/Sub classification. -/
theorem is_sub_ca_crashes_attr_error :
    (is_sub_ca "Ghost" (.obj a0) fsHier).val =
      .error (.fileNotFound "Certificate for Ghost not found.") ∧
    (is_sub_ca "NotCA" (.obj a0) fsHier).val =
      .error (.valueError "The certificate for NotCA is not a CA.") ∧
    (is_sub_ca "Sub" (.obj a0) fsHier).val = .error .attrError ∧
    (is_sub_ca "Root" (.obj a0) fsHier).val = .error .attrError :=
  ⟨by decide, by decide, by decide, by decide⟩

/-- C4 (code bug): in the wizard's non-CA signing flow, with pending
CSRs `a` and `b` and `details['common_name'] = "a"` left over from an
earlier create-CSR, signing the selected CSR `b` archives `b`'s key in
`keys/` but removes `csr/a.csr` — line 181 names `details`, not the
selected CSR — leaving `csr/b.csr` in place; and in a session where no
CSR was created, `details` is unbound and the flow raises
`UnboundLocalError` instead of removing anything. -/
theorem signFlow_removes_wrong_request :
    (signFlow a0 (some "a") 2 1 fsTwoCsr).val = .ok .signed ∧
    "b.key" ∈ (signFlow a0 (some "a") 2 1 fsTwoCsr).fs.keyFiles ∧
    "b.csr" ∈ (signFlow a0 (some "a") 2 1 fsTwoCsr).fs.csrFiles ∧
    "a.csr" ∉ (signFlow a0 (some "a") 2 1 fsTwoCsr).fs.csrFiles ∧
    (signFlow a0 none 1 1 fsOneCsr).val = .error .nameError :=
  ⟨by decide, by decide, by decide, by decide, by decide⟩

/-- C5 (counterexample): an out-of-range 1-based index at the wizard's
CSR-selection prompt (5, with one CSR listed) or at the CA-selection
prompt (7, with one CA listed) makes the sign flow end in an uncaught
`IndexError` — there is no handler in the wizard, so this aborts the
loop rather than re-prompting. -/
theorem signFlow_out_of_range_crashes :
    (signFlow a0 (some "a") 5 1 fsOneCsr).val = .error .indexError ∧
    (signFlow a0 (some "a") 1 7 fsOneCsr).val = .error .indexError :=
  ⟨by decide, by decide⟩

/-- C6 (counterexample): invoked without `--days`, the argument parser
supplies its single default 3650 (line 199), and `main` passes
`args.days` to the signing operation (line 107) — 3650, not the 365 the
claim states. -/
theorem sign_csr_cli_days_not_365 :
    (mainSignCsrCall (parseArgs "host1" none none)).2.2 = 3650 ∧
    (mainSignCsrCall (parseArgs "host1" none none)).2.2 ≠ 365 :=
  ⟨rfl, by decide⟩

/-- C6 (amended): when the non-interactive sign-csr command is invoked
without `--days`, the validity period passed to the signing operation
equals 3650 days (the parser's default for every command). -/
theorem sign_csr_cli_default_days (common_name : String) (cliBasedir : Option String) :
    (mainSignCsrCall (parseArgs common_name none cliBasedir)).2.2 = 3650 := rfl

/-- C7: `get_root_ca` over a store whose `ca/` directory is empty or
absent returns `None` without raising, creates `ca/` (empty) when it was
absent, touches nothing else, and performs no toolkit call. -/
theorem get_root_ca_empty (a : Args) (fs : FS)
    (h : fs.caDirExists = false ∨ fs.caNames = []) :
    (get_root_ca (.obj a) fs).val = .ok none ∧
    (get_root_ca (.obj a) fs).fs.caDirExists = true ∧
    (get_root_ca (.obj a) fs).fs.caNames = [] ∧
    (get_root_ca (.obj a) fs).fs.caCerts = fs.caCerts ∧
    (get_root_ca (.obj a) fs).fs.caKeys = fs.caKeys ∧
    (get_root_ca (.obj a) fs).fs.csrFiles = fs.csrFiles ∧
    (get_root_ca (.obj a) fs).fs.certFiles = fs.certFiles ∧
    (get_root_ca (.obj a) fs).tr = [] := by
  unfold get_root_ca get_cas
  rcases h with h | h
  · simp [h, rootScan]
  · by_cases hd : fs.caDirExists
    · simp [hd, h, rootScan]
    · simp [hd, rootScan]

/-- Witness for `get_root_ca_empty` on the empty store. -/
theorem get_root_ca_empty_w :
    (get_root_ca (.obj a0) fsEmpty).val = .ok none ∧
    (get_root_ca (.obj a0) fsEmpty).fs.caDirExists = true ∧
    (get_root_ca (.obj a0) fsEmpty).fs.caNames = [] ∧
    (get_root_ca (.obj a0) fsEmpty).fs.caCerts = fsEmpty.caCerts ∧
    (get_root_ca (.obj a0) fsEmpty).fs.caKeys = fsEmpty.caKeys ∧
    (get_root_ca (.obj a0) fsEmpty).fs.csrFiles = fsEmpty.csrFiles ∧
    (get_root_ca (.obj a0) fsEmpty).fs.certFiles = fsEmpty.certFiles ∧
    (get_root_ca (.obj a0) fsEmpty).tr = [] :=
  get_root_ca_empty a0 fsEmpty (Or.inl rfl)

/-- C8: show-certificate fails with `FileNotFoundError` when
`certs/<name>.crt` is absent, and in that case performs no toolkit call
at all — in particular the rendering collaborator is never invoked;
when the file exists it returns the toolkit's rendering, obtained by
exactly one rendering call. -/
theorem show_cert_notfound_before_render (a : Args) (fs : FS) (common_name : String) :
    (fs.certFiles.lookup common_name = none →
      (show_cert common_name (.obj a) fs).val =
        .error (.fileNotFound ("Certificate for " ++ common_name ++ " not found.")) ∧
      (show_cert common_name (.obj a) fs).tr = []) ∧
    (∀ c, fs.certFiles.lookup common_name = some c →
      (show_cert common_name (.obj a) fs).val = .ok (renderText common_name c) ∧
      (show_cert common_name (.obj a) fs).tr =
        [Event.render (a.basedir ++ "/certs/" ++ common_name ++ ".crt")]) := by
  constructor
  · intro h; unfold show_cert; simp [h]
  · intro c h; unfold show_cert; simp [h]

/-- Witness for `show_cert_notfound_before_render`: the store `fsCerts`
holds `certs/host1.crt` and no `certs/ghost.crt`. -/
theorem show_cert_notfound_before_render_w :
    ((show_cert "ghost" (.obj a0) fsCerts).val =
        .error (.fileNotFound "Certificate for ghost not found.") ∧
     (show_cert "ghost" (.obj a0) fsCerts).tr = []) ∧
    ((show_cert "host1" (.obj a0) fsCerts).val = .ok (renderText "host1" hostCert) ∧
     (show_cert "host1" (.obj a0) fsCerts).tr = [Event.render "./certs/host1.crt"]) :=
  ⟨(show_cert_notfound_before_render a0 fsCerts "ghost").1 (by decide),
   (show_cert_notfound_before_render a0 fsCerts "host1").2 hostCert (by decide)⟩

/-- C9: in non-interactive mode, each of create-csr, sign-csr and
show-cert fails with a runtime error before invoking the toolkit or
touching any file: `main` leaves `args=None` in the first two calls
(`AttributeError` at the first f-string) and omits `show_cert`'s
required `args` parameter (`TypeError` at the call): the store is
returned unchanged and the event trace is empty. -/
theorem main_noninteractive_ops_crash (a : Args) (fs : FS) :
    main .createCsr a fs = ⟨fs, [], .error .attrError⟩ ∧
    main .signCsr a fs = ⟨fs, [], .error .attrError⟩ ∧
    main .showCert a fs = ⟨fs, [], .error .typeError⟩ :=
  ⟨rfl, rfl, rfl⟩

/-- C5 (amended): at the wizard's CSR-selection prompt, an out-of-range
1-based index makes the sign flow end in an uncaught `IndexError`
(`csrs[csr_index]`, line 169): since the wizard has no exception
handler, the loop aborts instead of re-prompting. -/
theorem signFlow_out_of_range_index_error (a : Args) (details? : Option String)
    (caInput k : Int) (fs : FS)
    (hdir : fs.csrDirExists = true)
    (hne : listedCsrs fs ≠ [])
    (hk : k - 1 < -((listedCsrs fs).length : Int) ∨ ((listedCsrs fs).length : Int) ≤ k - 1) :
    (signFlow a details? k caInput fs).val = .error .indexError := by
  unfold signFlow
  simp only [hdir, if_true]
  have hie : (listedCsrs fs).isEmpty = false := by
    cases hl : listedCsrs fs with
    | nil => exact absurd hl hne
    | cons x xs => rfl
  rw [pyIndex_out_of_range _ _ hk]
  simp [hie]

/-- Witness for `signFlow_out_of_range_index_error`: index 9 with a
single listed CSR. -/
theorem signFlow_out_of_range_index_error_w :
    (signFlow a0 none 9 1 fsOneCsr).val = .error .indexError :=
  signFlow_out_of_range_index_error a0 none 1 9 fsOneCsr rfl (by decide) (by decide)

/-- Part lemma for C10, sign flow: entering 0 at both of its prompts
selects the last listed CSR and the last listed CA, with no
`IndexError`. -/
theorem signFlow_zero_selects_last_part (a : Args) (details? : Option String) (fs : FS)
    (hdir : fs.csrDirExists = true)
    (hcsr : listedCsrs fs ≠ [])
    (hca : fs.caDirExists = true)
    (hcane : fs.caNames ≠ []) :
    Event.sign (fs.caNames.getLast hcane)
        (pyReplace ((listedCsrs fs).getLast hcsr) ".csr" "") 365
      ∈ (signFlow a details? 0 0 fs).tr ∧
    (signFlow a details? 0 0 fs).val ≠ .error .indexError := by
  unfold signFlow
  simp only [hdir, if_true]
  have hie : (listedCsrs fs).isEmpty = false := by
    cases hl : listedCsrs fs with
    | nil => exact absurd hl hcsr
    | cons x xs => rfl
  rw [pyIndex_last _ hcsr]
  unfold get_cas
  simp only [hca, if_true]
  rw [pyIndex_last _ hcane]
  rcases hs : sign_csr (fs.caNames.getLast hcane)
      (pyReplace ((listedCsrs fs).getLast hcsr) ".csr" "") 365 (.obj a) fs with ⟨fs3, tr3, v⟩
  have htr := sign_csr_obj_tr (fs.caNames.getLast hcane)
      (pyReplace ((listedCsrs fs).getLast hcsr) ".csr" "") 365 a fs
  have hv := sign_csr_obj_val (fs.caNames.getLast hcane)
      (pyReplace ((listedCsrs fs).getLast hcsr) ".csr" "") 365 a fs
  rw [hs] at htr hv
  simp only at htr hv
  cases v with
  | error e =>
      rcases hv with hv | hv
      · cases hv
      · simp [hie, hs, htr]
        intro h
        rw [h] at hv
        cases hv
  | ok u =>
      simp only [hie, Bool.false_eq_true, if_false, hs, htr]
      repeat' split
      all_goals simp

/-- Part lemma for C10, sub-CA promotion flow: entering 0 at its
signing-CA prompt (lines 146-151) selects the last CA of the listing
taken after `ca/<name>/` was created, signing is invoked with it, and
no `IndexError` is raised. -/
theorem subCaFlow_zero_selects_last_part (a : Args) (d : CsrDetails) (fs : FS) :
    Event.sign ((addFile d.common_name fs.caNames).getLast (addFile_ne_nil d.common_name fs.caNames))
        (pySplitDotHead (d.common_name ++ ".csr")) d.days
      ∈ (subCaFlow a d 0 fs).tr ∧
    (subCaFlow a d 0 fs).val ≠ .error .indexError := by
  unfold subCaFlow
  simp only [create_csr, get_cas, if_true, ite_true, eq_self_iff_true]
  have hkey : (d.common_name ++ ".key") ∈
      addFile (d.common_name ++ ".csr") (addFile (d.common_name ++ ".key") fs.csrFiles) :=
    mem_addFile_of_mem _ _ _ (mem_addFile_self _ _)
  simp only [hkey, if_true, ite_true]
  split
  next e heq =>
    rw [pyIndex_last _ (addFile_ne_nil d.common_name fs.caNames)] at heq
    cases heq
  next ca heq =>
    rw [pyIndex_last _ (addFile_ne_nil d.common_name fs.caNames)] at heq
    injection heq with h'
    subst h'
    split
    next fs5 tr5 e heq2 =>
      have h2 := congrArg Res.tr heq2
      rw [sign_csr_obj_tr] at h2
      simp only at h2
      constructor
      · simp [← h2]
      · intro hc
        simp only at hc
        have h3 := congrArg Res.val heq2
        simp only at h3
        rw [hc] at h3
        exact sign_csr_obj_val_ne_index _ _ _ _ _ h3
    next fs5 tr5 u heq2 =>
      have h2 := congrArg Res.tr heq2
      rw [sign_csr_obj_tr] at h2
      simp only at h2
      split
      next heq3 => exact ⟨by simp [← h2], by simp⟩
      next c heq3 =>
        split
        next hreq => exact ⟨by simp [← h2], by simp⟩
        next hreq => exact ⟨by simp [← h2], by simp⟩

/-- C10: entering 0 at each of the wizard's 1-based selection prompts —
the CSR prompt and the CA prompt of the sign flow (lines 165-177), and
the signing-CA prompt of the sub-CA promotion flow (lines 146-151) —
raises no error and triggers no re-prompt: the computed index
`0 - 1 = -1` is a valid Python negative index, so the last listed entry
is silently selected — witnessed by the signing invocation performed on
exactly those entries. -/
theorem wizard_zero_selects_last (a : Args) (details? : Option String) (d : CsrDetails) (fs : FS)
    (hdir : fs.csrDirExists = true)
    (hcsr : listedCsrs fs ≠ [])
    (hca : fs.caDirExists = true)
    (hcane : fs.caNames ≠ []) :
    (Event.sign (fs.caNames.getLast hcane)
        (pyReplace ((listedCsrs fs).getLast hcsr) ".csr" "") 365
       ∈ (signFlow a details? 0 0 fs).tr ∧
     (signFlow a details? 0 0 fs).val ≠ .error .indexError) ∧
    (Event.sign ((addFile d.common_name fs.caNames).getLast (addFile_ne_nil d.common_name fs.caNames))
        (pySplitDotHead (d.common_name ++ ".csr")) d.days
       ∈ (subCaFlow a d 0 fs).tr ∧
     (subCaFlow a d 0 fs).val ≠ .error .indexError) :=
  ⟨signFlow_zero_selects_last_part a details? fs hdir hcsr hca hcane,
   subCaFlow_zero_selects_last_part a d fs⟩

/-- Witness for `wizard_zero_selects_last`: with `a.csr`, `b.csr` and
the single CA `Root` listed, entering 0 at both sign-flow prompts signs
`b` (the last CSR) with `Root` (the last CA); and in the promotion of
`inter` (CA listing `inter`, `Root`), entering 0 at the signing-CA
prompt signs with `Root`.  No `IndexError` anywhere. -/
theorem wizard_zero_selects_last_w :
    (Event.sign "Root" "b" 365 ∈ (signFlow a0 (some "a") 0 0 fsTwoCsr).tr ∧
     (signFlow a0 (some "a") 0 0 fsTwoCsr).val ≠ .error .indexError) ∧
    (Event.sign "Root" (pySplitDotHead "inter.csr") 365 ∈ (subCaFlow a0 dInter 0 fsTwoCsr).tr ∧
     (subCaFlow a0 dInter 0 fsTwoCsr).val ≠ .error .indexError) :=
  wizard_zero_selects_last a0 (some "a") dInter fsTwoCsr rfl (by decide) rfl (by decide)

/-- C2 (amended): in every successful run of the wizard's sub-CA
promotion flow the event order is fixed: generate the CSR, relocate the
pending key into `ca/<name>/` (before any certificate exists), sign the
CSR, relocate the issued certificate, and finally remove the request
file. -/
theorem subCaFlow_event_order (a : Args) (d : CsrDetails) (caInput : Int) (fs : FS)
    (h : (subCaFlow a d caInput fs).val = .ok ()) :
    ∃ ca, (subCaFlow a d caInput fs).tr =
      [Event.genCSR d.common_name,
       Event.rename (a.basedir ++ "/csr/" ++ d.common_name ++ ".key")
                    (a.basedir ++ "/ca/" ++ d.common_name ++ "/ca.key"),
       Event.sign ca (pySplitDotHead (d.common_name ++ ".csr")) d.days,
       Event.rename (a.basedir ++ "/certs/" ++ d.common_name ++ ".crt")
                    (a.basedir ++ "/ca/" ++ d.common_name ++ "/ca.crt"),
       Event.remove (a.basedir ++ "/csr/" ++ d.common_name ++ ".csr")] := by
  revert h
  unfold subCaFlow
  simp only [create_csr, get_cas, if_true, ite_true, eq_self_iff_true]
  split
  next hkey =>
    split
    next e heq => intro h; simp at h
    next ca heq =>
      split
      next fs5 tr5 e heq2 => intro h; simp at h
      next fs5 tr5 u heq2 =>
        have htr : tr5 = [Event.sign ca (pySplitDotHead (d.common_name ++ ".csr")) d.days] := by
          have h2 := congrArg Res.tr heq2
          rw [sign_csr_obj_tr] at h2
          exact h2.symm
        split
        next heq3 => intro h; simp at h
        next c heq3 =>
          split
          next hreq => intro h; exact ⟨ca, by simp [htr]⟩
          next hreq => intro h; simp at h
  next hkey => intro h; simp at h

/-- Witness for `subCaFlow_event_order`: the concrete promotion of
`inter` signed by `Root`. -/
theorem subCaFlow_event_order_w :
    ∃ ca, (subCaFlow a0 dInter 2 fsRoot).tr =
      [Event.genCSR "inter",
       Event.rename "./csr/inter.key" "./ca/inter/ca.key",
       Event.sign ca (pySplitDotHead "inter.csr") 365,
       Event.rename "./certs/inter.crt" "./ca/inter/ca.crt",
       Event.remove "./csr/inter.csr"] :=
  subCaFlow_event_order a0 dInter 2 fsRoot (by decide)

end EasyCA
